import Mathlib

/-!
Verification development for the `npipe` package (Windows named pipes).

The Go source is shallowly embedded: external Windows API calls
(WaitForSingleObject, GetOverlappedResult, ConnectNamedPipe, CreateNamedPipe,
CreateFile, WaitNamedPipeW, CreateEvent) are modelled by environment records
that supply the outcome (errno or success) the OS would report; the package
functions themselves are translated line by line.  Go `error` values are
modelled by the inductive `GoError`, whose decidable equality matches Go's
`==` on the comparisons the package performs (an interface comparison of an
error against a `windows.Errno` constant, or against the comparable struct
value `ErrClosed`): a `fmt.Errorf`-produced error (`GoError.wrapped` /
`GoError.str`) is never `==` an errno value, exactly as in Go, and an errno
equals an errno of the same code.  Time is modelled as `Int` milliseconds.
-/

deriving instance DecidableEq for Except

namespace npipe

/-! Windows error codes used by the package (values of `windows.Errno`). -/

def ERROR_FILE_NOT_FOUND : Nat := 2
def ERROR_BROKEN_PIPE : Nat := 109
def ERROR_SEM_TIMEOUT : Nat := 121
def ERROR_BAD_PATHNAME : Nat := 161
def ERROR_PIPE_BUSY : Nat := 231
def ERROR_NO_DATA : Nat := 232
def ERROR_PIPE_CONNECTED : Nat := 535
def ERROR_OPERATION_ABORTED : Nat := 995
def ERROR_IO_INCOMPLETE : Nat := 996
def ERROR_IO_PENDING : Nat := 997

/-- `syscall.EINVAL` on Windows, returned by `windows.UTF16PtrFromString`
for a string containing a NUL byte. -/
def EINVAL : Nat := 22

/-- `PipeError` from the package source: an error related to a call to a
pipe, carrying a message and a timeout flag (struct fields `msg`, `timeout`).
As a Go struct of comparable fields it is compared by value under `==`. -/
structure PipeError where
  msg : String
  timeout : Bool
  deriving DecidableEq, Repr

/-- `func (e PipeError) Error() string` -/
def PipeError.Error (e : PipeError) : String := e.msg

/-- `func (e PipeError) Timeout() bool` -/
def PipeError.Timeout (e : PipeError) : Bool := e.timeout

/-- `func (e PipeError) Temporary() bool` — the source returns `false`
unconditionally. -/
def PipeError.Temporary (_ : PipeError) : Bool := false

/-- `ErrClosed` — the error returned by `PipeListener.Accept` when `Close`
is called on the `PipeListener`. -/
def ErrClosed : PipeError := ⟨"Pipe has been closed.", false⟩

/-- A Go `error` interface value as this package can observe it:
* `errno c` — a raw `windows.Errno` with code `c`;
* `eof` — `io.EOF`;
* `pipe e` — a `PipeError` struct value;
* `str m` — a plain `fmt.Errorf`/`errors.New` error with message `m`;
* `wrapped ctx inner` — `fmt.Errorf` formatting `inner` after the context
  text `ctx` (the `"...: %s"` pattern used throughout the package).

Decidable equality on this type agrees with Go `==` for every comparison
the package performs: those all compare against an `errno` constant or the
`PipeError` value `ErrClosed`, and in Go a `fmt.Errorf` result is a fresh
pointer-typed error that never compares equal to either. -/
inductive GoError where
  | errno (code : Nat)
  | eof
  | pipe (e : PipeError)
  | str (m : String)
  | wrapped (ctx : String) (inner : GoError)
  deriving DecidableEq, Repr

/-- Whether a returned error reports `Timeout() == true` to a caller doing
the `net.Error` dance.  Only `PipeError` has a `Timeout` method among the
errors this package can return; `io.EOF` and `fmt.Errorf`-produced errors
have none (the `net.Error` assertion fails), and the `windows.Errno` codes
appearing in this package (2, 109, 121, 161, 231, 232, 535, 995, 996, 997)
all report `Timeout() == false` in Go's syscall package. -/
def GoError.timeoutFlag : GoError → Bool
  | .pipe e => e.Timeout
  | _ => false

/-- `func badAddr(addr string) PipeError` -/
def badAddr (addr : String) : PipeError :=
  ⟨"Invalid pipe address \x27" ++ addr ++ "\x27.", false⟩

/-- `func timeout(addr string) PipeError` -/
def timeout (addr : String) : PipeError :=
  ⟨"Pipe IO timed out waiting for \x27" ++ addr ++ "\x27", true⟩

/-! ### The overlapped-I/O completion primitive -/

/-- `type iodata struct { n uint32; err error }` — the outcome of one
overlapped operation: bytes transferred and status.  (The struct is part of
this repository; its two fields are those used at every occurrence.) -/
structure iodata where
  n : Nat
  err : Option GoError
  deriving DecidableEq, Repr

/-- Message prefix of the error `waitForCompletion` builds around a failing
`WaitForSingleObject`. -/
def wfcWaitMsg : String :=
  "npipe.waitForCompletion(): there was an error calling WINAPI WaitForSingleObject"

/-- Message prefix of the error `waitForCompletion` builds around a failing
`GetOverlappedResult`. -/
def wfcGORMsg : String :=
  "npipe.waitForCompletion(): there was an error calling WINAPI GetOverlappedResult"

/-- `waitForCompletion` (npipe_windows.go:102-115).  The environment supplies
the errno outcome of `WaitForSingleObject` (`waitErr`), and the bytes
transferred / errno outcome of `GetOverlappedResult` (`ovlN`, `ovlErr`).
Note both failure paths wrap the errno in a `fmt.Errorf` before returning
it: the returned error is never a raw `windows.Errno`. -/
def waitForCompletion (waitErr : Option Nat) (ovlN : Nat) (ovlErr : Option Nat) : iodata :=
  match waitErr with
  | some e => ⟨0, some (.wrapped wfcWaitMsg (.errno e))⟩
  | none =>
    match ovlErr with
    | some e => ⟨ovlN, some (.wrapped wfcGORMsg (.errno e))⟩
    | none => ⟨ovlN, none⟩

/-- Message prefix of the error `newOverlapped` builds around a failing
`CreateEvent` (the doubled l is in the source). -/
def noeMsg : String :=
  "npipe.newOverlapped(): there was an error callling WINAPI CreateEvent"

/-- `newOverlapped` (npipe_windows.go:91-97): allocates the event for one
overlapped request.  The environment supplies the `CreateEvent` errno. -/
def newOverlapped (createEventErr : Option Nat) : Except GoError Unit :=
  match createEventErr with
  | some e => .error (.wrapped noeMsg (.errno e))
  | none => .ok ()

/-! ### PipeConn -/

/-- `PipeConn` (addr_windows.go): one connected pipe handle, the address,
and the two optional absolute deadlines (`*time.Time`, `none` = nil). -/
structure PipeConn where
  handle : Nat
  addr : String
  readDeadline : Option Int
  writeDeadline : Option Int
  deriving DecidableEq, Repr

/-- `PipeConn.completeRequest` (addr_windows.go:41-68).  `data` is the
issue-time outcome; `comp` is what `waitForCompletion` would deliver for the
pending request; `timerWins` resolves the `select` race in favour of the
deadline timer (it is consulted only when a timer was armed, i.e. when
`deadline` is non-nil and strictly in the future — `timeDiff > 0` in the
source; with no armed timer the `select` can only take the completion).
On the timer branch the source calls `CancelIoEx` (a pure effect) and
substitutes the timeout error. -/
def PipeConn.completeRequest (c : PipeConn) (data : iodata) (deadline : Option Int)
    (now : Int) (comp : iodata) (timerWins : Bool) : Int × Option GoError :=
  let data1 : iodata :=
    if data.err = some (.errno ERROR_IO_INCOMPLETE) ∨ data.err = some (.errno ERROR_IO_PENDING) then
      let timerArmed : Bool :=
        match deadline with
        | some d => decide (0 < d - now)
        | none => false
      if timerArmed && timerWins then ⟨0, some (.pipe (timeout c.addr))⟩ else comp
    else data
  let data2 : iodata :=
    if data1.err = some (.errno ERROR_BROKEN_PIPE) then ⟨data1.n, some .eof⟩ else data1
  (Int.ofNat data2.n, data2.err)

/-- Environment of one `Read`/`Write` call: the `CreateEvent` outcome for
`newOverlapped`, the synchronous outcome of `ReadFile`/`WriteFile` at issue
time (`issueN`, `issueErr` — a raw errno, e.g. `ERROR_IO_PENDING`), the
outcome of the completion wait, the value of `time.Now()` at the deadline
check, and which side wins the completion/timer race. -/
structure OpEnv where
  createEventErr : Option Nat
  issueN : Nat
  issueErr : Option Nat
  waitSingleErr : Option Nat
  ovlN : Nat
  ovlErr : Option Nat
  now : Int
  timerWins : Bool
  deriving Repr

/-- Message prefix `PipeConn.Read` wraps a `newOverlapped` failure in. -/
def readWrapMsg : String := "npipe.PipeConn.Read()"

/-- Message prefix `PipeConn.Write` wraps a `newOverlapped` failure in. -/
def writeWrapMsg : String := "npipe.PipeConn.Write()"

/-- `PipeConn.Read` (addr_windows.go:71-82): allocate an overlapped event,
issue `ReadFile`, drive it through `completeRequest` with the read
deadline. -/
def PipeConn.Read (c : PipeConn) (env : OpEnv) : Int × Option GoError :=
  match newOverlapped env.createEventErr with
  | .error e => (0, some (.wrapped readWrapMsg e))
  | .ok _ =>
    c.completeRequest ⟨env.issueN, env.issueErr.map .errno⟩ c.readDeadline env.now
      (waitForCompletion env.waitSingleErr env.ovlN env.ovlErr) env.timerWins

/-- `PipeConn.Write` (addr_windows.go:85-94), same shape with the write
deadline. -/
def PipeConn.Write (c : PipeConn) (env : OpEnv) : Int × Option GoError :=
  match newOverlapped env.createEventErr with
  | .error e => (0, some (.wrapped writeWrapMsg e))
  | .ok _ =>
    c.completeRequest ⟨env.issueN, env.issueErr.map .errno⟩ c.writeDeadline env.now
      (waitForCompletion env.waitSingleErr env.ovlN env.ovlErr) env.timerWins

/-- `PipeConn.SetReadDeadline` (addr_windows.go:128-131): stores `&t` — note
the stored pointer is non-nil for every `t`, including the zero time; the
source always returns a nil error. -/
def PipeConn.SetReadDeadline (c : PipeConn) (t : Int) : PipeConn :=
  { c with readDeadline := some t }

/-- `PipeConn.SetWriteDeadline` (addr_windows.go:135-138). -/
def PipeConn.SetWriteDeadline (c : PipeConn) (t : Int) : PipeConn :=
  { c with writeDeadline := some t }

/-- `PipeConn.SetDeadline` (addr_windows.go:114-124): sets both. -/
def PipeConn.SetDeadline (c : PipeConn) (t : Int) : PipeConn :=
  (c.SetReadDeadline t).SetWriteDeadline t

/-- `PipeConn.LocalAddr` returns `c.addr`. -/
def PipeConn.LocalAddr (c : PipeConn) : String := c.addr

/-- `PipeConn.RemoteAddr` returns `c.addr` as well (documented limitation). -/
def PipeConn.RemoteAddr (c : PipeConn) : String := c.addr

/-! ### Dialer -/

/-- Whether a Go string makes `windows.UTF16PtrFromString` fail: it returns
`syscall.EINVAL` exactly when the string contains a NUL byte. -/
def containsNUL (s : String) : Bool := s.data.any (fun c => c.toNat == 0)

/-- Message prefix `waitNamedPipe` wraps a failing `WaitNamedPipeW` in. -/
def wnpMsg : String :=
  "npipe.waitNamedPipe(): there was an error calling the Windows API function WaitNamedPipeW"

/-- `waitNamedPipe` (npipe_windows.go:243-250).  The environment supplies the
`WaitNamedPipeW` errno (`none` = the call succeeded).  On failure the errno
is wrapped in a `fmt.Errorf`; the function never returns a raw
`windows.Errno`. -/
def waitNamedPipe (res : Option Nat) : Option GoError :=
  res.map (fun e => .wrapped wnpMsg (.errno e))

/-- Environment of one `dial` attempt: the `WaitNamedPipeW` outcome and the
`CreateFile` outcome (errno or the opened handle).  The per-attempt timeout
argument only parameterises the external wait, whose outcome `waitErr`
already encodes. -/
structure DialEnv where
  waitErr : Option Nat
  createFileRes : Except Nat Nat
  deriving Repr

/-- Message prefix `dial` wraps a UTF16 conversion failure in. -/
def dialUtfMsg : String :=
  "npipe.dial(): there was an error converting the address to a UTF16 pointer"

/-- Message prefix `dial` wraps a failing `CreateFile` in. -/
def dialCfMsg : String :=
  "npipe.dial(): there was an error calling WINAPI CreateFile"

/-- `dial` (npipe_windows.go:120-153): convert the address, wait for an
instance, open the client handle.  The `err == windows.ERROR_BAD_PATHNAME`
comparison is kept exactly as in the source; note `waitNamedPipe` can only
deliver a `wrapped` error, never a raw errno. -/
def dial (address : String) (env : DialEnv) : Except GoError PipeConn :=
  if containsNUL address then
    .error (.wrapped dialUtfMsg (.errno EINVAL))
  else
    match waitNamedPipe env.waitErr with
    | some err =>
      if err = .errno ERROR_BAD_PATHNAME then .error (.pipe (badAddr address))
      else .error err
    | none =>
      match env.createFileRes with
      | .error e => .error (.wrapped dialCfMsg (.errno e))
      | .ok h => .ok ⟨h, address, none, none⟩

/-- `isPipeNotReady` (npipe_windows.go:80-87): interface comparison of the
error against two errno constants. -/
def isPipeNotReady (e : GoError) : Bool :=
  decide (e = .errno ERROR_FILE_NOT_FOUND) || decide (e = .errno ERROR_PIPE_BUSY)

/-- Message prefix `Dial` wraps a fatal attempt error in. -/
def dialWrapMsg : String := "npipe.Dial()"

/-- `Dial` (npipe_windows.go:32-44): loop forever, attempting `dial` with an
effectively unbounded wait; retry after a 100ms sleep while the error is
pipe-not-ready, otherwise return the wrapped error.  `envs n` is the
environment of attempt `n`; the `fuel` argument bounds the unrolling of the
source's unbounded `for` loop (`none` = still looping after `fuel`
attempts). -/
def Dial (address : String) (envs : Nat → DialEnv) : Nat → Option (Except GoError PipeConn)
  | 0 => none
  | fuel + 1 =>
    match dial address (envs 0) with
    | .ok c => some (.ok c)
    | .error e =>
      if isPipeNotReady e then Dial address (fun n => envs (n + 1)) fuel
      else some (.error (.wrapped dialWrapMsg e))

/-- The timeout-flagged `PipeError` `DialTimeout` builds (both at the
`ERROR_SEM_TIMEOUT` check and at deadline expiry; the source formats the
address into the message). -/
def dtErr (address : String) : PipeError :=
  ⟨"npipe.DialTimeout(): timed out waiting for pipe \x27" ++ address ++
    "\x27 to come available", true⟩

/-- `DialTimeout` (npipe_windows.go:47-77).  `deadline` is the absolute
deadline `time.Now().Add(timeout)` computed once at entry, `now` the second
`time.Now()` before the loop; `times n` supplies the value `now` is
refreshed to after the sleep of iteration `n`.  Each iteration attempts
`dial`, translates `ERROR_SEM_TIMEOUT` to the timeout-flagged error,
retries on pipe-not-ready (sleeping, clamped to the deadline), and returns
any other error as is; when `now` reaches the deadline the loop exits with
the timeout-flagged error.  `fuel` bounds the unrolling (`none` = still
looping). -/
def DialTimeout (address : String) (deadline : Int) (envs : Nat → DialEnv)
    (times : Nat → Int) (now : Int) : Nat → Option (Except GoError PipeConn)
  | 0 => none
  | fuel + 1 =>
    if now < deadline then
      match dial address (envs 0) with
      | .ok c => some (.ok c)
      | .error e =>
        if e = .errno ERROR_SEM_TIMEOUT then some (.error (.pipe (dtErr address)))
        else if isPipeNotReady e then
          DialTimeout address deadline (fun n => envs (n + 1)) (fun n => times (n + 1))
            (times 0) fuel
        else some (.error e)
    else some (.error (.pipe (dtErr address)))

/-! ### Address validation -/

/-- Prepend a character to the first segment of a split (the non-separator
case of `strings.Split`). -/
def consHead (c : Char) : List (List Char) → List (List Char)
  | [] => [[c]]
  | s :: ss => (c :: s) :: ss

/-- `strings.Split(address, "\\")` for the one-character separator used by
`ValidatePipeAddress`: split a character list at every occurrence of `sep`,
keeping empty segments, never returning an empty list (Go returns `[""]`
for the empty string). -/
def splitChar (sep : Char) : List Char → List (List Char)
  | [] => [[]]
  | c :: rest =>
    if c = sep then [] :: splitChar sep rest else consHead c (splitChar sep rest)

/-- Lowercasing as `strings.ToLower` acts on the ASCII strings compared
here (`Char.toLower` lowercases exactly the ASCII uppercase letters). -/
def toLowerStr (s : List Char) : List Char := s.map Char.toLower

/-- The literal `"pipe"` the third segment is compared against. -/
def pipeLit : String := "pipe"

/-- The validation error for too few segments. -/
def vpaPartsMsg : String :=
  "npipe.ValidatePipeAddress(): expected at least 5 parts from pipe address"

/-- The validation error for a bad host segment. -/
def vpaIPMsg : String := "npipe.ValidatePipeAddress(): invalid IP address"

/-- The validation error for a third segment other than pipe. -/
def vpaPipeMsg : String := "npipe.ValidatePipeAddress(): expected pipe"

/-- The body of `ValidatePipeAddress` after the split, on the segment list
`p` (npipe_windows.go:174-192): at least 5 segments; segment 2 is `.` or an
IP address `net.ParseIP` accepts (the external parser is the parameter
`parseIPOk`); segment 3 is `pipe` case-insensitively.  `some msg` is the
returned error, `none` success. -/
def validateParts (parseIPOk : List Char → Bool) (p : List (List Char)) : Option String :=
  if p.length < 5 then some vpaPartsMsg
  else if p.getD 2 [] ≠ ['.'] ∧ parseIPOk (p.getD 2 []) = false then some vpaIPMsg
  else if toLowerStr (p.getD 3 []) ≠ pipeLit.data then some vpaPipeMsg
  else none

/-- `ValidatePipeAddress` (npipe_windows.go:167-193). -/
def ValidatePipeAddress (parseIPOk : List Char → Bool) (address : String) : Option String :=
  validateParts parseIPOk (splitChar '\\' address.data)

/-! ### PipeListener -/

/-- `PipeListener` (listener_windows.go:16-28): address, the eagerly created
next-instance handle (0 = none), the closed flag, and the outstanding-accept
record (`acceptHandle` = 0 and `acceptOverlapped` = false when no accept is
waiting).  The mutex serialises transitions and is not part of the value
state. -/
structure PipeListener where
  addr : String
  handle : Nat
  closed : Bool
  acceptHandle : Nat
  acceptOverlapped : Bool
  deriving DecidableEq, Repr

/-- Message prefix `NewPipeListener` wraps a validation failure in. -/
def nplWrapMsg : String := "npipe.NewPipeListener()"

/-- Message prefix `NewPipeListener` wraps a UTF16 conversion failure in. -/
def nplUtfMsg : String :=
  "npipe.NewPipeListener(): there was an error converting the name to a UTF16 pointer"

/-- Message prefix `NewPipeListener` wraps a failing `CreateNamedPipe` in. -/
def nplCnpMsg : String :=
  "npipe.NewPipeListener(): there was an error calling the WINAPI CreateNamedPipe function"

/-- `NewPipeListener` (listener_windows.go:44-72): validate the address,
create one pipe instance eagerly and store its handle.  `createPipe` is the
external `CreateNamedPipe`, applied to the pipe name (the open-mode, pipe
mode, instance, buffer and timeout arguments only parameterise the OS call
whose outcome `createPipe` encodes). -/
def NewPipeListener (name : String) (parseIPOk : List Char → Bool)
    (createPipe : String → Except Nat Nat) : Except GoError PipeListener :=
  match ValidatePipeAddress parseIPOk name with
  | some msg => .error (.wrapped nplWrapMsg (.str msg))
  | none =>
    if containsNUL name then .error (.wrapped nplUtfMsg (.errno EINVAL))
    else
      match createPipe name with
      | .error e => .error (.wrapped nplCnpMsg (.errno e))
      | .ok h => .ok ⟨name, h, false, 0, false⟩

/-- The fail-fast error of `AcceptPipe` on an empty address or a closed
listener (listener_windows.go:122-124). -/
def apClosedMsg : String :=
  "npipe.PipeListener.AcceptPipe(): the address is empty or the listener is closed"

/-- The error of `AcceptPipe` on a UTF16 conversion failure
(listener_windows.go:134-137). -/
def apUtfMsg : String :=
  "npipe.PipeListener.AcceptPipe(): there was an error converting the address to a UTF16 pointer"

/-- Environment of one `AcceptPipe` call: the external `CreateNamedPipe`
(consulted only when no pending handle is stored, applied to the listener's
address), the `CreateEvent` outcome for `newOverlapped`, the raw errno of
`ConnectNamedPipe` at issue time (`none` = connected synchronously), and the
completion-wait outcomes.  A concurrent `PipeListener.Close` cancelling the
pending connect via `CancelIoEx` (listener_windows.go:207) surfaces here as
`ovlErr = some ERROR_OPERATION_ABORTED`. -/
structure AcceptEnv where
  createPipe : String → Except Nat Nat
  createEventErr : Option Nat
  connectErr : Option Nat
  waitSingleErr : Option Nat
  ovlN : Nat
  ovlErr : Option Nat

/-- The body of `AcceptPipe` after the handle selection
(listener_windows.go:146-179): allocate the overlapped event, issue
`ConnectNamedPipe` on `handle`, succeed on a synchronous connect, otherwise
wait for the pending completion (the source records the outstanding accept,
waits unlocked, and clears the record in a defer before returning — the net
state change of that path clears the accept record), map the
`ERROR_OPERATION_ABORTED` comparison outcome, and propagate everything
else. -/
def PipeListener.acceptWith (l1 : PipeListener) (handle : Nat) (env : AcceptEnv) :
    PipeListener × Except GoError PipeConn :=
  match newOverlapped env.createEventErr with
  | .error e => (l1, .error e)
  | .ok _ =>
    if env.connectErr = none ∨ env.connectErr = some ERROR_PIPE_CONNECTED then
      (l1, .ok ⟨handle, l1.addr, none, none⟩)
    else
      let pending : Prop :=
        env.connectErr = some ERROR_IO_INCOMPLETE ∨ env.connectErr = some ERROR_IO_PENDING
      let err : Option GoError :=
        if pending then (waitForCompletion env.waitSingleErr env.ovlN env.ovlErr).err
        else env.connectErr.map .errno
      let l2 : PipeListener :=
        if pending then { l1 with acceptHandle := 0, acceptOverlapped := false } else l1
      if err = some (.errno ERROR_OPERATION_ABORTED) then (l2, .error (.pipe ErrClosed))
      else
        match err with
        | some e => (l2, .error e)
        | none => (l2, .ok ⟨handle, l1.addr, none, none⟩)

/-- `PipeListener.AcceptPipe` (listener_windows.go:114-180), returning the
updated listener state and the result.  The first call consumes the handle
stored by `NewPipeListener` (clearing it); later calls create a fresh
instance under the same name. -/
def PipeListener.AcceptPipe (l : PipeListener) (env : AcceptEnv) :
    PipeListener × Except GoError PipeConn :=
  if l.addr = "" ∨ l.closed = true then
    (l, .error (.str apClosedMsg))
  else
    let sel : Except GoError (PipeListener × Nat) :=
      if l.handle ≠ 0 then .ok ({ l with handle := 0 }, l.handle)
      else if containsNUL l.addr then .error (.str apUtfMsg)
      else
        match env.createPipe l.addr with
        | .error e => .error (.errno e)
        | .ok h => .ok (l, h)
    match sel with
    | .error e => (l, .error e)
    | .ok (l1, handle) => l1.acceptWith handle env

/-! ### General lemmas about the embedding -/

/-- Every error `dial` can return is a `fmt.Errorf`-wrapped error or the
`badAddr` `PipeError`; none of them compares equal to the raw errno
constants `isPipeNotReady` tests, so `isPipeNotReady` is `false` on every
error `dial` returns. -/
theorem dial_error_not_ready (address : String) (env : DialEnv) (e : GoError)
    (h : dial address env = .error e) : isPipeNotReady e = false := by
  unfold dial at h
  split at h
  · cases h
    rfl
  · revert h
    unfold waitNamedPipe
    cases env.waitErr with
    | some w =>
      simp only [Option.map_some']
      intro h
      split at h <;> (cases h; rfl)
    | none =>
      simp only [Option.map_none']
      cases env.createFileRes with
      | error ce => intro h; cases h; rfl
      | ok hh => intro h; cases h

/-- A split never produces the empty list of segments (Go's `strings.Split`
returns one segment even for the empty string). -/
theorem splitChar_ne_nil (sep : Char) (l : List Char) : splitChar sep l ≠ [] := by
  induction l with
  | nil => simp [splitChar]
  | cons c rest ih =>
    by_cases hc : c = sep
    · simp [splitChar, hc]
    · simp only [splitChar, if_neg hc]
      cases hs : splitChar sep rest with
      | nil => exact absurd hs ih
      | cons s ss => simp [consHead]

/-- Splitting a well-formed local pipe path: the leading
`\\.\pipe\` produces the segments `"", "", ".", "pipe"` followed by the
split of the remainder. -/
theorem splitChar_pipePath (cs : List Char) :
    splitChar '\\' ('\\' :: '\\' :: '.' :: '\\' :: 'p' :: 'i' :: 'p' :: 'e' :: '\\' :: cs)
      = [] :: [] :: ['.'] :: ['p', 'i', 'p', 'e'] :: splitChar '\\' cs := rfl

/-! ### Claims -/

/-- Test address used by the concrete evaluations below. -/
def addrX : String := "\x5c\x5c.\x5cpipe\x5cx"

/-- Malformed test address (four segments). -/
def addrBad : String := "\x5c\x5c.\x5cbad"

/-- C1: the broken-pipe completion status is normalized to `io.EOF` on the
synchronous path, but on the pending path (`ReadFile` returned
`ERROR_IO_PENDING` and the completed wait reports `ERROR_BROKEN_PIPE`)
`waitForCompletion` wraps the errno in a `fmt.Errorf`, the
`data.err == windows.ERROR_BROKEN_PIPE` comparison in `completeRequest`
fails, and `Read` returns the wrapped generic error instead of `io.EOF` —
refuting the claim for the pending half. -/
theorem C1_broken_pipe_to_eof :
    (PipeConn.Read ⟨1, addrX, none, none⟩
        ⟨none, 0, some ERROR_BROKEN_PIPE, none, 0, none, 0, false⟩).2
      = some GoError.eof
    ∧ (PipeConn.Read ⟨1, addrX, none, none⟩
        ⟨none, 0, some ERROR_IO_PENDING, none, 0, some ERROR_BROKEN_PIPE, 0, false⟩).2
      = some (GoError.wrapped wfcGORMsg (.errno ERROR_BROKEN_PIPE))
    ∧ (PipeConn.Read ⟨1, addrX, none, none⟩
        ⟨none, 0, some ERROR_IO_PENDING, none, 0, some ERROR_BROKEN_PIPE, 0, false⟩).2
      ≠ some GoError.eof :=
  ⟨rfl, rfl, by decide⟩

/-- C2: an `AcceptPipe` whose pending `ConnectNamedPipe` is cancelled by a
concurrent `Close` (the completion wait reports `ERROR_OPERATION_ABORTED`)
does not return `ErrClosed`: `waitForCompletion` wraps the errno, the
`err == windows.ERROR_OPERATION_ABORTED` comparison fails, and the wrapped
generic error is returned — refuting the claim. -/
theorem C2_cancelled_accept_error :
    (PipeListener.AcceptPipe ⟨addrX, 5, false, 0, false⟩
        ⟨fun _ => .ok 9, none, some ERROR_IO_PENDING, none, 0, some ERROR_OPERATION_ABORTED⟩).2
      = .error (.wrapped wfcGORMsg (.errno ERROR_OPERATION_ABORTED))
    ∧ (PipeListener.AcceptPipe ⟨addrX, 5, false, 0, false⟩
        ⟨fun _ => .ok 9, none, some ERROR_IO_PENDING, none, 0, some ERROR_OPERATION_ABORTED⟩).2
      ≠ .error (.pipe ErrClosed) :=
  ⟨rfl, by decide⟩

/-- C3: `Dial` never retries: every error `dial` can produce is wrapped, so
`isPipeNotReady` is false and the loop exits on the first failed attempt.
Concretely, with the first attempt failing `ERROR_FILE_NOT_FOUND` (pipe not
yet created) and every later attempt set up to succeed, `Dial` returns the
wrapped error immediately instead of sleeping 100ms and retrying — the
second conjunct shows the very next attempt would have yielded the
connection. -/
theorem C3_dial_no_retry :
    Dial addrX (fun n => if n = 0 then ⟨some ERROR_FILE_NOT_FOUND, .ok 7⟩ else ⟨none, .ok 7⟩) 5
      = some (.error (.wrapped dialWrapMsg (.wrapped wnpMsg (.errno ERROR_FILE_NOT_FOUND))))
    ∧ Dial addrX (fun _ => ⟨none, .ok 7⟩) 5 = some (.ok ⟨7, addrX, none, none⟩) :=
  ⟨rfl, rfl⟩

/-- C4: when `WaitNamedPipeW` itself times out with `ERROR_SEM_TIMEOUT`,
`DialTimeout` does not return a timeout-flagged error: the errno arrives
wrapped, the `err == windows.ERROR_SEM_TIMEOUT` comparison fails, and the
wrapped generic error (no `Timeout()` method) is returned — refuting the
claim.  Only the degenerate entry-time deadline expiry (last two conjuncts)
still yields the timeout-flagged `PipeError`. -/
theorem C4_sem_timeout_unflagged :
    DialTimeout addrX 200 (fun _ => ⟨some ERROR_SEM_TIMEOUT, .ok 7⟩) (fun _ => 0) 0 5
      = some (.error (.wrapped wnpMsg (.errno ERROR_SEM_TIMEOUT)))
    ∧ GoError.timeoutFlag (.wrapped wnpMsg (.errno ERROR_SEM_TIMEOUT)) = false
    ∧ DialTimeout addrX 0 (fun _ => ⟨some ERROR_SEM_TIMEOUT, .ok 7⟩) (fun _ => 0) 0 5
      = some (.error (.pipe (dtErr addrX)))
    ∧ GoError.timeoutFlag (.pipe (dtErr addrX)) = true :=
  ⟨rfl, rfl, rfl, rfl⟩

/-- C6: on a malformed address `WaitNamedPipeW` fails with
`ERROR_BAD_PATHNAME`, but `waitNamedPipe` wraps the errno, so `dial`'s
`err == windows.ERROR_BAD_PATHNAME` check never fires and the distinguished
`badAddr` `PipeError` is never returned: `Dial` (and `DialTimeout`) return
the wrapped generic error instead — immediately and without retrying, but
not as the bad-address error the claim requires. -/
theorem C6_bad_pathname_not_badaddr :
    Dial addrBad (fun n => if n = 0 then ⟨some ERROR_BAD_PATHNAME, .ok 7⟩ else ⟨none, .ok 7⟩) 5
      = some (.error (.wrapped dialWrapMsg (.wrapped wnpMsg (.errno ERROR_BAD_PATHNAME))))
    ∧ dial addrBad ⟨some ERROR_BAD_PATHNAME, .ok 7⟩
      = .error (.wrapped wnpMsg (.errno ERROR_BAD_PATHNAME))
    ∧ GoError.wrapped dialWrapMsg (.wrapped wnpMsg (.errno ERROR_BAD_PATHNAME))
      ≠ .pipe (badAddr addrBad)
    ∧ DialTimeout addrBad 200 (fun _ => ⟨some ERROR_BAD_PATHNAME, .ok 7⟩) (fun _ => 0) 0 5
      = some (.error (.wrapped wnpMsg (.errno ERROR_BAD_PATHNAME))) :=
  ⟨rfl, rfl, by decide, rfl⟩

/-- C10: every `PipeError` reports `Temporary() == false` — in particular
the timeout-flagged errors built by `DialTimeout` and by deadline expiry —
and the distinguished `ErrClosed` value reports `Timeout() == false`. -/
theorem C10_error_flags :
    (∀ e : PipeError, e.Temporary = false)
    ∧ ErrClosed.Timeout = false
    ∧ (∀ address : String, (dtErr address).Timeout = true ∧ (dtErr address).Temporary = false)
    ∧ (∀ address : String, (timeout address).Timeout = true ∧ (timeout address).Temporary = false) :=
  ⟨fun _ => rfl, rfl, fun _ => ⟨rfl, rfl⟩, fun _ => ⟨rfl, rfl⟩⟩

/-- C7: when the issued operation completed synchronously (the issue status
is neither `ERROR_IO_INCOMPLETE` nor `ERROR_IO_PENDING`), `completeRequest`
short-circuits: the result does not depend on the completion wait or the
deadline race at all (first conjunct, for any two wait outcomes), and is the
already-available byte count and status (with the broken-pipe status
normalized as documented at addr_windows.go:61-66). -/
theorem C7_sync_short_circuit (c : PipeConn) (data : iodata) (deadline : Option Int)
    (now : Int) (comp comp' : iodata) (tw tw' : Bool)
    (h1 : data.err ≠ some (.errno ERROR_IO_INCOMPLETE))
    (h2 : data.err ≠ some (.errno ERROR_IO_PENDING)) :
    c.completeRequest data deadline now comp tw = c.completeRequest data deadline now comp' tw'
    ∧ c.completeRequest data deadline now comp tw =
        (Int.ofNat data.n,
         if data.err = some (.errno ERROR_BROKEN_PIPE) then some GoError.eof else data.err) := by
  have hcond : ¬(data.err = some (.errno ERROR_IO_INCOMPLETE)
      ∨ data.err = some (.errno ERROR_IO_PENDING)) := by
    rintro (h | h)
    · exact h1 h
    · exact h2 h
  refine ⟨?_, ?_⟩
  · simp only [PipeConn.completeRequest, if_neg hcond]
  · simp only [PipeConn.completeRequest, if_neg hcond]
    by_cases hb : data.err = some (GoError.errno ERROR_BROKEN_PIPE)
    · simp [hb]
    · simp [hb]

/-- Witness for C7 at a concrete synchronous completion: two different wait
outcomes produce the same result. -/
theorem C7_witness :
    PipeConn.completeRequest ⟨1, addrX, none, none⟩ ⟨3, none⟩ none 0 ⟨9, some GoError.eof⟩ true
      = PipeConn.completeRequest ⟨1, addrX, none, none⟩ ⟨3, none⟩ none 0 ⟨0, none⟩ false :=
  (C7_sync_short_circuit ⟨1, addrX, none, none⟩ ⟨3, none⟩ none 0 ⟨9, some GoError.eof⟩
    ⟨0, none⟩ true false (by decide) (by decide)).1

/-- A constructor-disagreement fact used to discharge error comparisons. -/
theorem pipe_ne_errno (e : PipeError) (n : Nat) : GoError.pipe e ≠ .errno n :=
  fun h => nomatch h

/-- No error `waitForCompletion` can deliver reports `Timeout() == true`:
both failure paths wrap the errno in a `fmt.Errorf`. -/
theorem waitForCompletion_err_flag (w : Option Nat) (wn : Nat) (we : Option Nat) :
    ∀ e, (waitForCompletion w wn we).err = some e → e.timeoutFlag = false := by
  intro e
  unfold waitForCompletion
  cases w with
  | some x =>
    intro h
    cases h
    rfl
  | none =>
    cases we with
    | some x =>
      intro h
      cases h
      rfl
    | none =>
      intro h
      cases h

/-- With a nil deadline `completeRequest` arms no timer, so its result error
is the issue-time or completion error (possibly normalized to `io.EOF`),
and carries no timeout flag provided neither input did. -/
theorem completeRequest_noDeadline_flag (c : PipeConn) (data : iodata) (now : Int)
    (comp : iodata) (tw : Bool)
    (hdata : ∀ g, data.err = some g → g.timeoutFlag = false)
    (hcomp : ∀ g, comp.err = some g → g.timeoutFlag = false) :
    ∀ e, (c.completeRequest data none now comp tw).2 = some e → e.timeoutFlag = false := by
  intro e
  by_cases hpend : data.err = some (.errno ERROR_IO_INCOMPLETE)
      ∨ data.err = some (.errno ERROR_IO_PENDING)
  · by_cases hbrk : comp.err = some (.errno ERROR_BROKEN_PIPE)
    · simp only [PipeConn.completeRequest, if_pos hpend, Bool.false_and, Bool.false_eq_true,
        if_false, if_pos hbrk]
      intro h
      cases h
      rfl
    · simp only [PipeConn.completeRequest, if_pos hpend, Bool.false_and, Bool.false_eq_true,
        if_false, if_neg hbrk]
      exact hcomp e
  · by_cases hbrk : data.err = some (.errno ERROR_BROKEN_PIPE)
    · simp only [PipeConn.completeRequest, if_neg hpend, if_pos hbrk]
      intro h
      cases h
      rfl
    · simp only [PipeConn.completeRequest, if_neg hpend, if_neg hbrk]
      exact hdata e

/-- C5 counterexample: with the read deadline set to a time already in the
past (deadline 0, `time.Now()` = 5) and a pending read whose completion
delivers 7 bytes, `Read` returns the completed operation's result
`(7, nil)` — no timer is armed (the source only arms one when
`timeDiff > 0`), so the call waits for completion instead of returning the
timeout-flagged error the claim requires. -/
theorem C5_past_deadline_counterexample :
    PipeConn.Read (PipeConn.SetReadDeadline ⟨1, addrX, none, none⟩ 0)
        ⟨none, 0, some ERROR_IO_PENDING, none, 7, none, 5, true⟩
      = (7, none) := rfl

/-- C5 amended: a read deadline at or before `time.Now()` arms no timer, so
`Read` behaves exactly as with no deadline — it waits for the operation to
complete (first conjunct); with an unset deadline `Read` never returns a
timeout-flagged error (second conjunct); only a deadline strictly in the
future that fires before completion produces the timeout-flagged error
(third conjunct). -/
theorem C5_deadline_semantics (c : PipeConn) (env : OpEnv) (d : Int) :
    (c.readDeadline = some d → d ≤ env.now →
      c.Read env = PipeConn.Read { c with readDeadline := none } env)
    ∧ (c.readDeadline = none →
       ∀ e, (c.Read env).2 = some e → e.timeoutFlag = false)
    ∧ (c.readDeadline = some d → env.now < d → env.timerWins = true →
       env.createEventErr = none →
       (env.issueErr = some ERROR_IO_INCOMPLETE ∨ env.issueErr = some ERROR_IO_PENDING) →
       c.Read env = (0, some (.pipe (timeout c.addr)))) := by
  refine ⟨?_, ?_, ?_⟩
  · intro hd hle
    cases hev : env.createEventErr with
    | some ce => simp [PipeConn.Read, newOverlapped, hev]
    | none =>
      simp only [PipeConn.Read, newOverlapped, hev, hd]
      simp only [PipeConn.completeRequest]
      have hnot : ¬(0 < d - env.now) := by omega
      simp [hnot]
  · intro hd e
    cases hev : env.createEventErr with
    | some ce =>
      simp only [PipeConn.Read, newOverlapped, hev]
      intro h
      cases h
      rfl
    | none =>
      simp only [PipeConn.Read, newOverlapped, hev, hd]
      refine completeRequest_noDeadline_flag c ⟨env.issueN, env.issueErr.map .errno⟩ env.now
          (waitForCompletion env.waitSingleErr env.ovlN env.ovlErr) env.timerWins ?_ ?_ e
      · intro g hg
        cases hi : env.issueErr with
        | none =>
          rw [hi] at hg
          cases hg
        | some x =>
          rw [hi] at hg
          cases hg
          rfl
      · exact waitForCompletion_err_flag _ _ _
  · intro hd hlt htw hev hpend
    have hpend' : (⟨env.issueN, env.issueErr.map GoError.errno⟩ : iodata).err
          = some (.errno ERROR_IO_INCOMPLETE)
        ∨ (⟨env.issueN, env.issueErr.map GoError.errno⟩ : iodata).err
          = some (.errno ERROR_IO_PENDING) := by
      rcases hpend with h | h
      · rw [show (⟨env.issueN, env.issueErr.map GoError.errno⟩ : iodata).err
            = env.issueErr.map GoError.errno from rfl, h]
        exact Or.inl rfl
      · rw [show (⟨env.issueN, env.issueErr.map GoError.errno⟩ : iodata).err
            = env.issueErr.map GoError.errno from rfl, h]
        exact Or.inr rfl
    simp only [PipeConn.Read, newOverlapped, hev, hd]
    simp only [PipeConn.completeRequest, if_pos hpend']
    have harm : (0 < d - env.now) := by omega
    simp [harm, htw, pipe_ne_errno]

/-- Witness for C5 amended, third conjunct: a future deadline (10) with the
timer winning the race turns a pending read into the timeout-flagged
error. -/
theorem C5_witness :
    PipeConn.Read ⟨1, addrX, some 10, none⟩
        ⟨none, 0, some ERROR_IO_PENDING, none, 7, none, 5, true⟩
      = (0, some (.pipe (timeout addrX))) :=
  (C5_deadline_semantics ⟨1, addrX, some 10, none⟩
      ⟨none, 0, some ERROR_IO_PENDING, none, 7, none, 5, true⟩ 10).2.2
    rfl (by decide) rfl rfl (Or.inr rfl)

/-- C8: validation succeeds for every address of the form
`\\.\pipe\<name>` (any suffix `cs`, for any external IP parser), and fails
whenever the address has fewer than five backslash-delimited segments, a
third segment other than pipe case-insensitively, or a host segment that is
neither a dot nor accepted by the IP parser. -/
theorem C8_validate_pipe_address :
    (∀ (parseIPOk : List Char → Bool) (cs : List Char),
      ValidatePipeAddress parseIPOk
          (String.mk ('\\' :: '\\' :: '.' :: '\\' :: 'p' :: 'i' :: 'p' :: 'e' :: '\\' :: cs))
        = none)
    ∧ (∀ (parseIPOk : List Char → Bool) (address : String),
        (splitChar '\\' address.data).length < 5 →
        (ValidatePipeAddress parseIPOk address).isSome = true)
    ∧ (∀ (parseIPOk : List Char → Bool) (address : String),
        5 ≤ (splitChar '\\' address.data).length →
        toLowerStr ((splitChar '\\' address.data).getD 3 []) ≠ pipeLit.data →
        (ValidatePipeAddress parseIPOk address).isSome = true)
    ∧ (∀ (parseIPOk : List Char → Bool) (address : String),
        5 ≤ (splitChar '\\' address.data).length →
        (splitChar '\\' address.data).getD 2 [] ≠ ['.'] →
        parseIPOk ((splitChar '\\' address.data).getD 2 []) = false →
        (ValidatePipeAddress parseIPOk address).isSome = true) := by
  refine ⟨?_, ?_, ?_, ?_⟩
  · intro pOk cs
    obtain ⟨s, ss, hs⟩ := List.exists_cons_of_ne_nil (splitChar_ne_nil '\\' cs)
    show validateParts pOk
        (splitChar '\\' ('\\' :: '\\' :: '.' :: '\\' :: 'p' :: 'i' :: 'p' :: 'e' :: '\\' :: cs))
      = none
    rw [splitChar_pipePath, hs]
    have hlen : ¬(([] :: [] :: ['.'] :: ['p', 'i', 'p', 'e'] :: s :: ss
        : List (List Char)).length < 5) := by
      simp only [List.length_cons]
      omega
    have h2 : ¬((([] :: [] :: ['.'] :: ['p', 'i', 'p', 'e'] :: s :: ss
          : List (List Char)).getD 2 [] ≠ ['.'])
        ∧ pOk (([] :: [] :: ['.'] :: ['p', 'i', 'p', 'e'] :: s :: ss
          : List (List Char)).getD 2 []) = false) :=
      fun h => h.1 rfl
    have h3 : ¬(toLowerStr (([] :: [] :: ['.'] :: ['p', 'i', 'p', 'e'] :: s :: ss
        : List (List Char)).getD 3 []) ≠ pipeLit.data) :=
      fun h => h rfl
    simp only [validateParts, if_neg hlen, if_neg h2, if_neg h3]
  · intro pOk address h
    show (validateParts pOk (splitChar '\\' address.data)).isSome = true
    simp only [validateParts, if_pos h, Option.isSome_some]
  · intro pOk address hlen hlow
    have hlen5 : ¬((splitChar '\\' address.data).length < 5) := by omega
    show (validateParts pOk (splitChar '\\' address.data)).isSome = true
    simp only [validateParts, if_neg hlen5]
    by_cases h2 : ((splitChar '\\' address.data).getD 2 [] ≠ ['.'])
        ∧ pOk ((splitChar '\\' address.data).getD 2 []) = false
    · simp only [if_pos h2, Option.isSome_some]
    · simp only [if_neg h2, if_pos hlow, Option.isSome_some]
  · intro pOk address hlen h2 h3
    have hlen5 : ¬((splitChar '\\' address.data).length < 5) := by omega
    show (validateParts pOk (splitChar '\\' address.data)).isSome = true
    simp only [validateParts, if_neg hlen5, if_pos (And.intro h2 h3), Option.isSome_some]

/-- Witness for C8 at concrete inputs: the local pipe path with name x
passes, and a three-segment address fails. -/
theorem C8_witness :
    ValidatePipeAddress (fun _ => false)
        (String.mk ['\\', '\\', '.', '\\', 'p', 'i', 'p', 'e', '\\', 'x']) = none
    ∧ (ValidatePipeAddress (fun _ => false) "abc").isSome = true :=
  ⟨C8_validate_pipe_address.1 (fun _ => false) ['x'],
   C8_validate_pipe_address.2.1 (fun _ => false) "abc" (by decide)⟩

/-- Every success of `acceptWith` wraps exactly the handle it was given, and
`acceptWith` never touches the listener's stored next-instance handle. -/
theorem acceptWith_spec (l1 : PipeListener) (handle : Nat) (env : AcceptEnv) :
    (l1.acceptWith handle env).1.handle = l1.handle ∧
    ∀ c, (l1.acceptWith handle env).2 = .ok c → c.handle = handle := by
  simp only [PipeListener.acceptWith]
  cases hev : env.createEventErr with
  | some ce =>
    simp only [newOverlapped]
    exact ⟨by trivial, fun c hcc => by simp at hcc⟩
  | none =>
    simp only [newOverlapped]
    by_cases hsync : env.connectErr = none ∨ env.connectErr = some ERROR_PIPE_CONNECTED
    · simp only [if_pos hsync]
      exact ⟨by trivial, fun c hcc => by cases hcc; rfl⟩
    · simp only [if_neg hsync]
      by_cases hp : env.connectErr = some ERROR_IO_INCOMPLETE
          ∨ env.connectErr = some ERROR_IO_PENDING
      · simp only [if_pos hp]
        by_cases hab : (waitForCompletion env.waitSingleErr env.ovlN env.ovlErr).err
            = some (.errno ERROR_OPERATION_ABORTED)
        · simp only [if_pos hab]
          exact ⟨by trivial, fun c hcc => by simp at hcc⟩
        · simp only [if_neg hab]
          cases hwf : (waitForCompletion env.waitSingleErr env.ovlN env.ovlErr).err with
          | some e => exact ⟨by trivial, fun c hcc => by simp at hcc⟩
          | none => exact ⟨by trivial, fun c hcc => by cases hcc; rfl⟩
      · simp only [if_neg hp]
        by_cases hab : env.connectErr.map GoError.errno = some (.errno ERROR_OPERATION_ABORTED)
        · simp only [if_pos hab]
          exact ⟨by trivial, fun c hcc => by simp at hcc⟩
        · simp only [if_neg hab]
          cases hm : env.connectErr.map GoError.errno with
          | some e => exact ⟨by trivial, fun c hcc => by simp at hcc⟩
          | none => exact ⟨by trivial, fun c hcc => by cases hcc; rfl⟩

/-- C9: `NewPipeListener` stores the eagerly created instance handle (third
conjunct); the first `AcceptPipe` on a listener holding that nonzero handle
consumes it — the stored handle is cleared, and a successful accept wraps
exactly it (first conjunct); any later call, finding the stored handle
cleared, creates a brand-new instance by applying `CreateNamedPipe` to the
same listener address, and wraps that fresh handle on success (second
conjunct). -/
theorem C9_accept_handle_lifecycle (l : PipeListener) (env : AcceptEnv) :
    (l.addr ≠ "" → l.closed = false → l.handle ≠ 0 →
      (l.AcceptPipe env).1.handle = 0 ∧
      ∀ c, (l.AcceptPipe env).2 = .ok c → c.handle = l.handle)
    ∧ (l.addr ≠ "" → l.closed = false → l.handle = 0 → containsNUL l.addr = false →
       ∀ h, env.createPipe l.addr = .ok h →
       ∀ c, (l.AcceptPipe env).2 = .ok c → c.handle = h)
    ∧ (∀ (name : String) (parseIPOk : List Char → Bool)
        (createPipe : String → Except Nat Nat) (h : Nat),
        ValidatePipeAddress parseIPOk name = none → containsNUL name = false →
        createPipe name = .ok h →
        NewPipeListener name parseIPOk createPipe = .ok ⟨name, h, false, 0, false⟩) := by
  have hnoOf : l.addr ≠ "" → l.closed = false → ¬(l.addr = "" ∨ l.closed = true) := by
    intro ha hc
    rintro (h | h)
    · exact ha h
    · rw [hc] at h
      cases h
  refine ⟨?_, ?_, ?_⟩
  · intro ha hc hh
    simp only [PipeListener.AcceptPipe, if_neg (hnoOf ha hc), if_pos hh]
    exact ⟨(acceptWith_spec _ _ _).1, (acceptWith_spec _ _ _).2⟩
  · intro ha hc hz hnul h hcr
    have hne : ¬(l.handle ≠ 0) := fun hcon => hcon hz
    have hnul' : ¬(containsNUL l.addr = true) := by
      rw [hnul]
      exact fun hcon => nomatch hcon
    simp only [PipeListener.AcceptPipe, if_neg (hnoOf ha hc), if_neg hne, if_neg hnul', hcr]
    exact (acceptWith_spec _ _ _).2
  · intro name pOk createPipe h hv hnul hcr
    have hnul' : ¬(containsNUL name = true) := by
      rw [hnul]
      exact fun hcon => nomatch hcon
    simp only [NewPipeListener, hv, if_neg hnul', hcr]

/-- Witness for C9 at a concrete first accept: listener created with stored
handle 5, synchronous client connect — the stored handle is consumed. -/
theorem C9_witness :
    (PipeListener.AcceptPipe ⟨addrX, 5, false, 0, false⟩
        ⟨fun _ => .ok 9, none, none, none, 0, none⟩).1.handle = 0 :=
  ((C9_accept_handle_lifecycle ⟨addrX, 5, false, 0, false⟩
      ⟨fun _ => .ok 9, none, none, none, 0, none⟩).1
    (by decide) rfl (by decide)).1

end npipe
